import Mathlib

/-!
Verification of the playlist-from-csv core logic.

The development shallowly embeds the two core components of the repository:

- the playlist resolver of src/playlist.rs, namely the function
  get_playlist_id_create_if_needed, together with its error taxonomy
  PlaylistError (a generic APIError wrapping an opaque inner error, and a
  structurally distinct PlaylistNotFound tag);
- the track sync engine, which exists in two variants in the repository:
  src/dynamodb.rs (the variant actually compiled into the binary, since
  main.rs declares only the modules dynamodb, playlist and spotify) and
  src/csv_to_playlist.rs (a variant that additionally sorts, deduplicates
  and reports a distinguished NoNewTracks outcome; it is referenced by no
  module declaration and is dead code in this snapshot);
- the empty-slice guard of SpotifyAPI::add_tracks_to_playlist in
  src/spotify.rs.

The remote service is modelled as a record of capability functions, exactly
the four methods of the PlaylistAPI trait of src/playlist.rs. Each embedded
core function returns, next to its result, the list of capability calls it
issued, in order; this makes call-count and no-mutating-call properties
stateable. A capability function is deterministic in its argument, which
matches both the production adapter viewed at a single instant and the
MockPlaylistAPI test doubles of the repository.
-/

/-- Track record parsed from the CSV export: the Song struct of
src/dynamodb.rs and src/csv_to_playlist.rs. The music field is a display
name, song_id is the Spotify track id. -/
structure Song where
  music : String
  song_id : String
deriving DecidableEq

/-- Error enum of src/playlist.rs: a generic API error wrapping an opaque
inner error, or the structurally distinct playlist-not-found tag (the
payload struct PlaylistNotFound has no fields). -/
inductive PlaylistError (E : Type) where
  | APIError (e : E)
  | PlaylistNotFound
deriving DecidableEq

/-- Capability record corresponding to the PlaylistAPI trait of
src/playlist.rs: the four remote operations, each returning a value or an
error. -/
structure PlaylistAPI (E : Type) where
  get_playlist_id : String → Except (PlaylistError E) String
  create_playlist : String → Except E String
  add_tracks_to_playlist : String → List String → Except E Unit
  get_track_ids_in_playlist : String → Except E (List String)

/-- One capability invocation, recording which PlaylistAPI method was called
and with which arguments. The embedded functions return the list of these
events in issue order. -/
inductive APICall where
  | getPlaylistId (playlist_name : String)
  | createPlaylist (playlist_name : String)
  | addTracksToPlaylist (playlist_id : String) (track_ids : List String)
  | getTrackIdsInPlaylist (playlist_id : String)
deriving DecidableEq

/-- Recognizer for create-playlist events, used to state call-count
properties about the resolver. -/
def APICall.isCreate : APICall → Bool
  | .createPlaylist _ => true
  | _ => false

/-- Projection used by both sync variants (get_track_id_from_song in
src/dynamodb.rs and src/csv_to_playlist.rs). -/
def get_track_id_from_song (song : Song) : String :=
  song.song_id

namespace Playlist

/-- Embedding of get_playlist_id_create_if_needed of src/playlist.rs:
look the name up; on success return the id; on PlaylistNotFound call create
and wrap a create failure as APIError; on APIError propagate it. The second
component records the capability calls issued. -/
def get_playlist_id_create_if_needed {E : Type} (api : PlaylistAPI E)
    (playlist_name : String) : Except (PlaylistError E) String × List APICall :=
  match api.get_playlist_id playlist_name with
  | .ok playlist_id => (.ok playlist_id, [.getPlaylistId playlist_name])
  | .error error =>
    match error with
    | .PlaylistNotFound =>
      match api.create_playlist playlist_name with
      | .ok id => (.ok id, [.getPlaylistId playlist_name, .createPlaylist playlist_name])
      | .error e =>
        (.error (.APIError e), [.getPlaylistId playlist_name, .createPlaylist playlist_name])
    | .APIError e => (.error (.APIError e), [.getPlaylistId playlist_name])

end Playlist

namespace Dynamodb

/-- Embedding of filter_duplicates of src/dynamodb.rs: fetch the track ids
already in the playlist, propagate a listing failure, otherwise keep the
input ids that are not contained in the playlist. -/
def filter_duplicates {E : Type} (api : PlaylistAPI E) (playlist_id : String)
    (track_ids : List String) : Except E (List String) × List APICall :=
  match api.get_track_ids_in_playlist playlist_id with
  | .error e => (.error e, [.getTrackIdsInPlaylist playlist_id])
  | .ok tracks =>
    (.ok (track_ids.filter fun id => !tracks.contains id),
     [.getTrackIdsInPlaylist playlist_id])

/-- Embedding of add_songs_to_playlist of src/dynamodb.rs: map songs to
ids, filter against the playlist contents (propagating its failure), then
unconditionally call the addition capability with the filtered list and
propagate its failure. -/
def add_songs_to_playlist {E : Type} (api : PlaylistAPI E) (playlist_id : String)
    (songs : List Song) : Except E Unit × List APICall :=
  match filter_duplicates api playlist_id (songs.map get_track_id_from_song) with
  | (.error e, calls) => (.error e, calls)
  | (.ok filtered, calls) =>
    match api.add_tracks_to_playlist playlist_id filtered with
    | .error e => (.error e, calls ++ [.addTracksToPlaylist playlist_id filtered])
    | .ok _ => (.ok (), calls ++ [.addTracksToPlaylist playlist_id filtered])

end Dynamodb

namespace CsvToPlaylist

/-- Error enum of src/csv_to_playlist.rs: a generic API error or the
distinguished no-new-tracks outcome (the payload struct NoNewTracks has no
fields). -/
inductive PlaylistAddError (E : Type) where
  | APIError (e : E)
  | NoNewTracks
deriving DecidableEq

/-- Embedding of filter_duplicates of src/csv_to_playlist.rs; the body is
identical to the dynamodb.rs version. -/
def filter_duplicates {E : Type} (api : PlaylistAPI E) (playlist_id : String)
    (track_ids : List String) : Except E (List String) × List APICall :=
  match api.get_track_ids_in_playlist playlist_id with
  | .error e => (.error e, [.getTrackIdsInPlaylist playlist_id])
  | .ok tracks =>
    (.ok (track_ids.filter fun id => !tracks.contains id),
     [.getTrackIdsInPlaylist playlist_id])

/-- Embedding of Vec::dedup as used by src/csv_to_playlist.rs: remove
consecutive repeated elements, keeping the first of each run. -/
def dedup : List String → List String
  | [] => []
  | [a] => [a]
  | a :: b :: rest => if a == b then dedup (b :: rest) else a :: dedup (b :: rest)

/-- Embedding of add_songs_to_playlist of src/csv_to_playlist.rs: map songs
to ids, filter against the playlist contents (wrapping a failure as
APIError), sort the filtered list and remove adjacent duplicates, return
the NoNewTracks error if nothing is left, otherwise call the addition
capability and wrap its failure as APIError. -/
def add_songs_to_playlist {E : Type} (api : PlaylistAPI E) (playlist_id : String)
    (songs : List Song) : Except (PlaylistAddError E) Unit × List APICall :=
  match filter_duplicates api playlist_id (songs.map get_track_id_from_song) with
  | (.error e, calls) => (.error (.APIError e), calls)
  | (.ok filtered, calls) =>
    let deduped := dedup (filtered.mergeSort fun a b => decide (a ≤ b))
    if deduped.isEmpty then (.error .NoNewTracks, calls)
    else
      match api.add_tracks_to_playlist playlist_id deduped with
      | .error e => (.error (.APIError e), calls ++ [.addTracksToPlaylist playlist_id deduped])
      | .ok _ => (.ok (), calls ++ [.addTracksToPlaylist playlist_id deduped])

end CsvToPlaylist

namespace Spotify

/-- Remote Spotify client as consumed by SpotifyAPI::add_tracks_to_playlist
in src/spotify.rs: the user_playlist_add_tracks endpoint, taking username,
playlist id, track ids and the position argument (always passed as none by
the adapter). -/
structure SpotifyClient (E : Type) where
  user_playlist_add_tracks : String → String → List String → Option Nat → Except E Unit

/-- One remote HTTP-level call issued by the spotify.rs adapter. -/
inductive SpotifyCall where
  | userPlaylistAddTracks (username : String) (playlist_id : String)
      (track_ids : List String) (position : Option Nat)
deriving DecidableEq

/-- Embedding of SpotifyAPI::add_tracks_to_playlist of src/spotify.rs:
return Ok immediately when the track id slice is empty, otherwise issue one
user_playlist_add_tracks request and propagate its failure. The second
component records the remote requests issued. -/
def add_tracks_to_playlist {E : Type} (client : SpotifyClient E) (username : String)
    (playlist_id : String) (track_ids : List String) :
    Except E Unit × List SpotifyCall :=
  if track_ids.isEmpty then (.ok (), [])
  else
    match client.user_playlist_add_tracks username playlist_id track_ids none with
    | .error e =>
      (.error e, [.userPlaylistAddTracks username playlist_id track_ids none])
    | .ok _ => (.ok (), [.userPlaylistAddTracks username playlist_id track_ids none])

end Spotify

/-- Deterministic capability record with fixed return values, mirroring the
MockPlaylistAPI test double used by the repository tests; used to
instantiate universally quantified theorems at concrete inputs. -/
def testAPI (get_playlist_id_returns : Except (PlaylistError Unit) String)
    (create_playlist_returns : Except Unit String)
    (add_tracks_to_playlist_returns : Except Unit Unit)
    (get_track_ids_in_playlist_returns : Except Unit (List String)) : PlaylistAPI Unit where
  get_playlist_id _ := get_playlist_id_returns
  create_playlist _ := create_playlist_returns
  add_tracks_to_playlist _ _ := add_tracks_to_playlist_returns
  get_track_ids_in_playlist _ := get_track_ids_in_playlist_returns

/-- C4: when the lookup capability succeeds with an identifier, the resolver
returns that identifier unchanged, issues exactly the one lookup call, and
issues no create call. -/
theorem claim_C4_lookup_success_no_create {E : Type} (api : PlaylistAPI E)
    (name id : String) (hget : api.get_playlist_id name = .ok id) :
    Playlist.get_playlist_id_create_if_needed api name = (.ok id, [.getPlaylistId name])
    ∧ (Playlist.get_playlist_id_create_if_needed api name).2.filter APICall.isCreate = [] := by
  have h : Playlist.get_playlist_id_create_if_needed api name
      = (.ok id, [.getPlaylistId name]) := by
    unfold Playlist.get_playlist_id_create_if_needed
    rw [hget]
  exact ⟨h, by rw [h]; rfl⟩

/-- C4 witness: a concrete capability record whose lookup returns id_123
makes the resolver return id_123 with a single lookup call and no create
call. -/
theorem claim_C4_witness :
    Playlist.get_playlist_id_create_if_needed
        (testAPI (.ok "id_123") (.ok "") (.ok ()) (.ok [])) "test_playlist_name1"
      = (.ok "id_123", [.getPlaylistId "test_playlist_name1"])
    ∧ (Playlist.get_playlist_id_create_if_needed
        (testAPI (.ok "id_123") (.ok "") (.ok ()) (.ok [])) "test_playlist_name1").2.filter
        APICall.isCreate = [] :=
  claim_C4_lookup_success_no_create
    (testAPI (.ok "id_123") (.ok "") (.ok ()) (.ok [])) "test_playlist_name1" "id_123" rfl

/-- C3: when the lookup capability reports the not-found variant and the
create capability succeeds with an identifier, the resolver returns exactly
that identifier, and the issued call list contains exactly one create call,
made with the same playlist name as the lookup. -/
theorem claim_C3_not_found_creates {E : Type} (api : PlaylistAPI E)
    (name id : String)
    (hget : api.get_playlist_id name = .error .PlaylistNotFound)
    (hcreate : api.create_playlist name = .ok id) :
    Playlist.get_playlist_id_create_if_needed api name
      = (.ok id, [.getPlaylistId name, .createPlaylist name])
    ∧ (Playlist.get_playlist_id_create_if_needed api name).2.filter APICall.isCreate
      = [.createPlaylist name] := by
  have h : Playlist.get_playlist_id_create_if_needed api name
      = (.ok id, [.getPlaylistId name, .createPlaylist name]) := by
    unfold Playlist.get_playlist_id_create_if_needed
    rw [hget, hcreate]
  exact ⟨h, by rw [h]; rfl⟩

/-- C3 witness: with lookup reporting not-found and create returning
id_123, the resolver returns id_123 and issues exactly the lookup call
followed by one create call with the same name. -/
theorem claim_C3_witness :
    Playlist.get_playlist_id_create_if_needed
        (testAPI (.error .PlaylistNotFound) (.ok "id_123") (.ok ()) (.ok []))
        "test_playlist_name1"
      = (.ok "id_123",
         [.getPlaylistId "test_playlist_name1", .createPlaylist "test_playlist_name1"])
    ∧ (Playlist.get_playlist_id_create_if_needed
        (testAPI (.error .PlaylistNotFound) (.ok "id_123") (.ok ()) (.ok []))
        "test_playlist_name1").2.filter APICall.isCreate
      = [.createPlaylist "test_playlist_name1"] :=
  claim_C3_not_found_creates
    (testAPI (.error .PlaylistNotFound) (.ok "id_123") (.ok ()) (.ok []))
    "test_playlist_name1" "id_123" rfl rfl

/-- C5: when the lookup capability fails with the generic API-error variant,
the resolver returns that same error unchanged, issues exactly the one
lookup call, and issues no create call. -/
theorem claim_C5_api_error_propagates {E : Type} (api : PlaylistAPI E)
    (name : String) (e : E)
    (hget : api.get_playlist_id name = .error (.APIError e)) :
    Playlist.get_playlist_id_create_if_needed api name
      = (.error (.APIError e), [.getPlaylistId name])
    ∧ (Playlist.get_playlist_id_create_if_needed api name).2.filter APICall.isCreate = [] := by
  have h : Playlist.get_playlist_id_create_if_needed api name
      = (.error (.APIError e), [.getPlaylistId name]) := by
    unfold Playlist.get_playlist_id_create_if_needed
    rw [hget]
  exact ⟨h, by rw [h]; rfl⟩

/-- C5 witness: with lookup failing with the generic API error, the resolver
propagates it and issues no create call. -/
theorem claim_C5_witness :
    Playlist.get_playlist_id_create_if_needed
        (testAPI (.error (.APIError ())) (.ok "id_123") (.ok ()) (.ok []))
        "test_playlist_name1"
      = (.error (.APIError ()), [.getPlaylistId "test_playlist_name1"])
    ∧ (Playlist.get_playlist_id_create_if_needed
        (testAPI (.error (.APIError ())) (.ok "id_123") (.ok ()) (.ok []))
        "test_playlist_name1").2.filter APICall.isCreate = [] :=
  claim_C5_api_error_propagates
    (testAPI (.error (.APIError ())) (.ok "id_123") (.ok ()) (.ok []))
    "test_playlist_name1" () rfl

/-- C6: when the lookup capability reports not-found and the create
capability then fails with e, the resolver returns the create failure
wrapped as the generic API-error variant, and never returns the not-found
variant. -/
theorem claim_C6_create_failure_surfaced {E : Type} (api : PlaylistAPI E)
    (name : String) (e : E)
    (hget : api.get_playlist_id name = .error .PlaylistNotFound)
    (hcreate : api.create_playlist name = .error e) :
    (Playlist.get_playlist_id_create_if_needed api name).1 = .error (.APIError e)
    ∧ (Playlist.get_playlist_id_create_if_needed api name).1
      ≠ .error .PlaylistNotFound := by
  have h : Playlist.get_playlist_id_create_if_needed api name
      = (.error (.APIError e), [.getPlaylistId name, .createPlaylist name]) := by
    unfold Playlist.get_playlist_id_create_if_needed
    rw [hget, hcreate]
  refine ⟨by rw [h], ?_⟩
  rw [h]
  intro hcontra
  exact PlaylistError.noConfusion (Except.error.inj hcontra)

/-- C6 witness: with lookup reporting not-found and create failing, the
resolver surfaces the create failure as the API-error variant and not as
not-found. -/
theorem claim_C6_witness :
    (Playlist.get_playlist_id_create_if_needed
        (testAPI (.error .PlaylistNotFound) (.error ()) (.ok ()) (.ok []))
        "test_playlist_name1").1 = .error (.APIError ())
    ∧ (Playlist.get_playlist_id_create_if_needed
        (testAPI (.error .PlaylistNotFound) (.error ()) (.ok ()) (.ok []))
        "test_playlist_name1").1 ≠ .error .PlaylistNotFound :=
  claim_C6_create_failure_surfaced
    (testAPI (.error .PlaylistNotFound) (.error ()) (.ok ()) (.ok []))
    "test_playlist_name1" () rfl rfl

/-- Helper: when the listing capability succeeds, the dynamodb.rs sync is
the listing call followed by one addition call with the filtered ids, and
its result is the addition result. -/
theorem dynamodb_add_songs_eq {E : Type} (api : PlaylistAPI E) (pid : String)
    (songs : List Song) (existing : List String)
    (hlist : api.get_track_ids_in_playlist pid = .ok existing) :
    Dynamodb.add_songs_to_playlist api pid songs
      = (match api.add_tracks_to_playlist pid
            ((songs.map get_track_id_from_song).filter fun id => !existing.contains id) with
         | .error e =>
           (.error e,
            [.getTrackIdsInPlaylist pid,
             .addTracksToPlaylist pid
               ((songs.map get_track_id_from_song).filter fun id => !existing.contains id)])
         | .ok _ =>
           (.ok (),
            [.getTrackIdsInPlaylist pid,
             .addTracksToPlaylist pid
               ((songs.map get_track_id_from_song).filter fun id => !existing.contains id)])) := by
  unfold Dynamodb.add_songs_to_playlist Dynamodb.filter_duplicates
  rw [hlist]
  rfl

/-- Helper: when the listing capability succeeds, the csv_to_playlist.rs
sync filters, sorts and deduplicates, returns NoNewTracks without a further
call when nothing is left, and otherwise issues one addition call with the
deduplicated ids. -/
theorem csv_add_songs_eq {E : Type} (api : PlaylistAPI E) (pid : String)
    (songs : List Song) (existing : List String)
    (hlist : api.get_track_ids_in_playlist pid = .ok existing) :
    CsvToPlaylist.add_songs_to_playlist api pid songs
      = (if (CsvToPlaylist.dedup (((songs.map get_track_id_from_song).filter
              fun id => !existing.contains id).mergeSort fun a b => decide (a ≤ b))).isEmpty then
           (.error .NoNewTracks, [.getTrackIdsInPlaylist pid])
         else
           match api.add_tracks_to_playlist pid
               (CsvToPlaylist.dedup (((songs.map get_track_id_from_song).filter
                 fun id => !existing.contains id).mergeSort fun a b => decide (a ≤ b))) with
           | .error e =>
             (.error (.APIError e),
              [.getTrackIdsInPlaylist pid,
               .addTracksToPlaylist pid
                 (CsvToPlaylist.dedup (((songs.map get_track_id_from_song).filter
                   fun id => !existing.contains id).mergeSort fun a b => decide (a ≤ b)))])
           | .ok _ =>
             (.ok (),
              [.getTrackIdsInPlaylist pid,
               .addTracksToPlaylist pid
                 (CsvToPlaylist.dedup (((songs.map get_track_id_from_song).filter
                   fun id => !existing.contains id).mergeSort fun a b => decide (a ≤ b)))])) := by
  unfold CsvToPlaylist.add_songs_to_playlist CsvToPlaylist.filter_duplicates
  rw [hlist]
  rfl

/-- C7: when the listing capability fails, the dynamodb.rs sync returns that
same error, its call list is exactly the one listing call, and in particular
no addition call is issued. -/
theorem claim_C7_listing_failure_propagates {E : Type} (api : PlaylistAPI E)
    (pid : String) (songs : List Song) (e : E)
    (hlist : api.get_track_ids_in_playlist pid = .error e) :
    Dynamodb.add_songs_to_playlist api pid songs = (.error e, [.getTrackIdsInPlaylist pid])
    ∧ ∀ p l, APICall.addTracksToPlaylist p l ∉ (Dynamodb.add_songs_to_playlist api pid songs).2 := by
  have h : Dynamodb.add_songs_to_playlist api pid songs
      = (.error e, [.getTrackIdsInPlaylist pid]) := by
    unfold Dynamodb.add_songs_to_playlist Dynamodb.filter_duplicates
    rw [hlist]
  refine ⟨h, ?_⟩
  intro p l hmem
  rw [h] at hmem
  simp at hmem

/-- C7 witness: with the listing capability failing on a concrete input, the
sync returns the error after exactly the listing call and issues no addition
call. -/
theorem claim_C7_witness :
    Dynamodb.add_songs_to_playlist (testAPI (.ok "") (.ok "") (.ok ()) (.error ()))
        "test_playlist_name1" [⟨"BLA", "3ndjkfd9"⟩]
      = (.error (), [.getTrackIdsInPlaylist "test_playlist_name1"])
    ∧ ∀ p l, APICall.addTracksToPlaylist p l
        ∉ (Dynamodb.add_songs_to_playlist (testAPI (.ok "") (.ok "") (.ok ()) (.error ()))
            "test_playlist_name1" [⟨"BLA", "3ndjkfd9"⟩]).2 :=
  claim_C7_listing_failure_propagates
    (testAPI (.ok "") (.ok "") (.ok ()) (.error ()))
    "test_playlist_name1" [⟨"BLA", "3ndjkfd9"⟩] () rfl

/-- C9: when the listing capability succeeds, filter_duplicates of
dynamodb.rs returns exactly the subsequence of the input ids whose elements
are absent from the playlist: the output is a sublist of the input
(relative order preserved), an id is in the output precisely when it is in
the input and not in the playlist, an absent id keeps its full input
multiplicity, and a present id is dropped entirely. -/
theorem claim_C9_filter_is_subsequence {E : Type} (api : PlaylistAPI E)
    (pid : String) (ids tracks : List String)
    (hlist : api.get_track_ids_in_playlist pid = .ok tracks) :
    ∃ out, (Dynamodb.filter_duplicates api pid ids).1 = .ok out
      ∧ out.Sublist ids
      ∧ (∀ x, x ∈ out ↔ x ∈ ids ∧ x ∉ tracks)
      ∧ (∀ x, x ∉ tracks → out.count x = ids.count x)
      ∧ (∀ x, x ∈ tracks → out.count x = 0) := by
  refine ⟨ids.filter fun id => !tracks.contains id, ?_, List.filter_sublist ids, ?_, ?_, ?_⟩
  · unfold Dynamodb.filter_duplicates
    rw [hlist]
  · intro x
    simp [List.mem_filter]
  · intro x hx
    exact List.count_filter (by simp [hx])
  · intro x hx
    rw [List.count_eq_zero]
    simp [List.mem_filter, hx]

/-- C9 witness: with the playlist containing b, the input a b a filters to
a a, a subsequence of the input in which the absent id a keeps its
multiplicity two and the present id b is dropped. -/
theorem claim_C9_witness :
    ∃ out, (Dynamodb.filter_duplicates (testAPI (.ok "") (.ok "") (.ok ()) (.ok ["b"]))
        "p" ["a", "b", "a"]).1 = .ok out
      ∧ out.Sublist ["a", "b", "a"]
      ∧ (∀ x, x ∈ out ↔ x ∈ ["a", "b", "a"] ∧ x ∉ ["b"])
      ∧ (∀ x, x ∉ ["b"] → out.count x = (["a", "b", "a"] : List String).count x)
      ∧ (∀ x, x ∈ ["b"] → out.count x = 0) :=
  claim_C9_filter_is_subsequence (testAPI (.ok "") (.ok "") (.ok ()) (.ok ["b"]))
    "p" ["a", "b", "a"] ["b"] rfl

/-- Helper: removing adjacent repeats preserves membership. -/
theorem dedup_mem : ∀ (l : List String) (x : String),
    x ∈ CsvToPlaylist.dedup l ↔ x ∈ l
  | [], x => by simp [CsvToPlaylist.dedup]
  | [a], x => by simp [CsvToPlaylist.dedup]
  | a :: b :: rest, x => by
    have ih := dedup_mem (b :: rest) x
    cases hab : a == b with
    | true =>
      have heq : a = b := by simpa using hab
      subst heq
      rw [show CsvToPlaylist.dedup (a :: a :: rest) = CsvToPlaylist.dedup (a :: rest) by
        simp [CsvToPlaylist.dedup]]
      rw [ih]
      simp only [List.mem_cons]
      tauto
    | false =>
      simp [CsvToPlaylist.dedup, hab, ih]

/-- Helper: removing adjacent repeats from a le-sorted list leaves no
duplicates at all, since equal elements of a sorted list are adjacent. -/
theorem dedup_nodup_of_sorted : ∀ l : List String,
    l.Pairwise (· ≤ ·) → (CsvToPlaylist.dedup l).Nodup
  | [], _ => by simp [CsvToPlaylist.dedup]
  | [a], _ => by simp [CsvToPlaylist.dedup]
  | a :: b :: rest, hs => by
    have hpair := List.pairwise_cons.mp hs
    have ih := dedup_nodup_of_sorted (b :: rest) hpair.2
    cases hab : a == b with
    | true => simpa [CsvToPlaylist.dedup, hab] using ih
    | false =>
      rw [show CsvToPlaylist.dedup (a :: b :: rest)
            = a :: CsvToPlaylist.dedup (b :: rest) by simp [CsvToPlaylist.dedup, hab]]
      rw [List.nodup_cons]
      refine ⟨?_, ih⟩
      intro hmem
      rw [dedup_mem] at hmem
      rcases List.mem_cons.mp hmem with heq | hmem2
      · rw [heq] at hab
        simp at hab
      · have h1 : a ≤ b := hpair.1 b (List.mem_cons_self b rest)
        have h2 : b ≤ a := (List.pairwise_cons.mp hpair.2).1 a hmem2
        rw [le_antisymm h1 h2] at hab
        simp at hab

/-- Helper: mergeSort with the decidable le comparator yields a pairwise
le-ordered list. -/
theorem mergeSort_le_sorted (l : List String) :
    (l.mergeSort fun a b => decide (a ≤ b)).Pairwise (· ≤ ·) := by
  have h := @List.sorted_mergeSort String (fun a b => decide (a ≤ b))
    (fun a b c h1 h2 => by
      simp only [decide_eq_true_eq] at h1 h2 ⊢
      exact le_trans h1 h2)
    (fun a b => by simpa using le_total a b)
    l
  exact h.imp fun hab => by simpa using hab

/-- C10: the spotify.rs adapter, asked to add an empty track id list,
returns success and issues no remote request at all, for every client,
username and playlist id. -/
theorem claim_C10_empty_add_no_request {E : Type} (client : Spotify.SpotifyClient E)
    (username playlist_id : String) :
    Spotify.add_tracks_to_playlist client username playlist_id [] = (.ok (), []) := rfl

/-- C1 counterexample: with an empty playlist and a desired input that
repeats the id a, the dynamodb.rs sync submits the id a twice to the
addition capability, so the submitted sequence does not contain each id at
most once. -/
theorem claim_C1_counterexample :
    (Dynamodb.add_songs_to_playlist (testAPI (.ok "") (.ok "") (.ok ()) (.ok []))
        "p" [⟨"BLA", "a"⟩, ⟨"test song", "a"⟩]).2
      = [.getTrackIdsInPlaylist "p", .addTracksToPlaylist "p" ["a", "a"]]
    ∧ ¬ (["a", "a"] : List String).Nodup :=
  ⟨rfl, by decide⟩

/-- C1 amended: when the listing capability succeeds, every sequence that
either sync variant submits to the addition capability equals, as a set,
the desired ids minus the existing ids. For the dynamodb.rs variant that is
wired into main.rs, the submitted sequence is moreover an order-preserving
subsequence of the desired input, so duplicate desired ids are submitted
with their input multiplicity rather than at most once; the at-most-once
part of the original claim holds only for the dead-code csv_to_playlist.rs
variant, whose submitted sequence has no duplicates. -/
theorem claim_C1_amended_set_difference {E : Type} (api : PlaylistAPI E) (pid : String)
    (songs : List Song) (existing : List String)
    (hlist : api.get_track_ids_in_playlist pid = .ok existing) :
    (∀ p l, APICall.addTracksToPlaylist p l ∈ (Dynamodb.add_songs_to_playlist api pid songs).2 →
        l.Sublist (songs.map get_track_id_from_song)
        ∧ ∀ x, x ∈ l ↔ x ∈ songs.map get_track_id_from_song ∧ x ∉ existing)
    ∧ (∀ p l,
        APICall.addTracksToPlaylist p l ∈ (CsvToPlaylist.add_songs_to_playlist api pid songs).2 →
        l.Nodup
        ∧ ∀ x, x ∈ l ↔ x ∈ songs.map get_track_id_from_song ∧ x ∉ existing) := by
  constructor
  · intro p l hmem
    rw [dynamodb_add_songs_eq api pid songs existing hlist] at hmem
    split at hmem <;>
      (simp only [List.mem_cons, List.not_mem_nil, or_false] at hmem
       rcases hmem with h1 | h2
       · exact absurd h1 (by simp)
       · injection h2 with hp hl
         subst hl
         exact ⟨List.filter_sublist _, fun x => by simp [List.mem_filter]⟩)
  · intro p l hmem
    rw [csv_add_songs_eq api pid songs existing hlist] at hmem
    split at hmem
    · simp at hmem
    · split at hmem <;>
        (simp only [List.mem_cons, List.not_mem_nil, or_false] at hmem
         rcases hmem with h1 | h2
         · exact absurd h1 (by simp)
         · injection h2 with hp hl
           subst hl
           refine ⟨dedup_nodup_of_sorted _ (mergeSort_le_sorted _), fun x => ?_⟩
           rw [dedup_mem, List.mem_mergeSort, List.mem_filter]
           simp)

/-- C1 witness: with the playlist containing vvcs33 and a desired input
that repeats 3ndjkfd9, the dynamodb.rs submission is an order-preserving
subsequence equal as a set to desired minus existing, and the
csv_to_playlist.rs submission is moreover duplicate-free. -/
theorem claim_C1_witness :
    (∀ p l, APICall.addTracksToPlaylist p l
        ∈ (Dynamodb.add_songs_to_playlist (testAPI (.ok "") (.ok "") (.ok ()) (.ok ["vvcs33"]))
            "pl" [⟨"BLA", "3ndjkfd9"⟩, ⟨"x", "3ndjkfd9"⟩, ⟨"y", "vvcs33"⟩]).2 →
        l.Sublist ([⟨"BLA", "3ndjkfd9"⟩, ⟨"x", "3ndjkfd9"⟩,
            (⟨"y", "vvcs33"⟩ : Song)].map get_track_id_from_song)
        ∧ ∀ x, x ∈ l ↔ x ∈ [⟨"BLA", "3ndjkfd9"⟩, ⟨"x", "3ndjkfd9"⟩,
            (⟨"y", "vvcs33"⟩ : Song)].map get_track_id_from_song ∧ x ∉ ["vvcs33"])
    ∧ (∀ p l, APICall.addTracksToPlaylist p l
        ∈ (CsvToPlaylist.add_songs_to_playlist
            (testAPI (.ok "") (.ok "") (.ok ()) (.ok ["vvcs33"]))
            "pl" [⟨"BLA", "3ndjkfd9"⟩, ⟨"x", "3ndjkfd9"⟩, ⟨"y", "vvcs33"⟩]).2 →
        l.Nodup
        ∧ ∀ x, x ∈ l ↔ x ∈ [⟨"BLA", "3ndjkfd9"⟩, ⟨"x", "3ndjkfd9"⟩,
            (⟨"y", "vvcs33"⟩ : Song)].map get_track_id_from_song ∧ x ∉ ["vvcs33"]) :=
  claim_C1_amended_set_difference (testAPI (.ok "") (.ok "") (.ok ()) (.ok ["vvcs33"]))
    "pl" [⟨"BLA", "3ndjkfd9"⟩, ⟨"x", "3ndjkfd9"⟩, ⟨"y", "vvcs33"⟩] ["vvcs33"] rfl

/-- C2 counterexample: with the playlist already containing the only desired
id a, the filtered submission is empty, yet the dynamodb.rs sync still
issues an addition call, with the empty list, and returns the plain Ok
value rather than any distinguished no-op outcome. -/
theorem claim_C2_counterexample :
    Dynamodb.add_songs_to_playlist (testAPI (.ok "") (.ok "") (.ok ()) (.ok ["a"])) "p"
        [⟨"m", "a"⟩]
      = (.ok (), [.getTrackIdsInPlaylist "p", .addTracksToPlaylist "p" []])
    ∧ APICall.addTracksToPlaylist "p" []
        ∈ (Dynamodb.add_songs_to_playlist (testAPI (.ok "") (.ok "") (.ok ()) (.ok ["a"])) "p"
            [⟨"m", "a"⟩]).2 :=
  ⟨rfl, by decide⟩

/-- C2 amended: when the listing succeeds and the filtered submission is
empty, the dynamodb.rs sync that is wired into main.rs returns the plain Ok
value, indistinguishable from a successful addition, and still calls the
addition capability with the empty sequence; the dead-code
csv_to_playlist.rs variant behaves as the original claim states, returning
the distinguished NoNewTracks outcome and issuing no addition call. -/
theorem claim_C2_amended_empty_submission {E : Type} (api : PlaylistAPI E) (pid : String)
    (songs : List Song) (existing : List String)
    (hlist : api.get_track_ids_in_playlist pid = .ok existing)
    (hempty : (songs.map get_track_id_from_song).filter (fun id => !existing.contains id) = [])
    (hadd : api.add_tracks_to_playlist pid [] = .ok ()) :
    Dynamodb.add_songs_to_playlist api pid songs
      = (.ok (), [.getTrackIdsInPlaylist pid, .addTracksToPlaylist pid []])
    ∧ CsvToPlaylist.add_songs_to_playlist api pid songs
      = (.error .NoNewTracks, [.getTrackIdsInPlaylist pid])
    ∧ ∀ p l, APICall.addTracksToPlaylist p l
        ∉ (CsvToPlaylist.add_songs_to_playlist api pid songs).2 := by
  have hdyn : Dynamodb.add_songs_to_playlist api pid songs
      = (.ok (), [.getTrackIdsInPlaylist pid, .addTracksToPlaylist pid []]) := by
    rw [dynamodb_add_songs_eq api pid songs existing hlist, hempty, hadd]
  have hcsv : CsvToPlaylist.add_songs_to_playlist api pid songs
      = (.error .NoNewTracks, [.getTrackIdsInPlaylist pid]) := by
    rw [csv_add_songs_eq api pid songs existing hlist, hempty]
    simp [CsvToPlaylist.dedup, List.mergeSort_nil]
  refine ⟨hdyn, hcsv, ?_⟩
  intro p l hmem
  rw [hcsv] at hmem
  simp at hmem

/-- C2 witness: a concrete playlist already containing the single desired id
w exhibits the amended behavior of both variants. -/
theorem claim_C2_witness :
    Dynamodb.add_songs_to_playlist (testAPI (.ok "") (.ok "") (.ok ()) (.ok ["w"])) "pw"
        [⟨"n", "w"⟩]
      = (.ok (), [.getTrackIdsInPlaylist "pw", .addTracksToPlaylist "pw" []])
    ∧ CsvToPlaylist.add_songs_to_playlist (testAPI (.ok "") (.ok "") (.ok ()) (.ok ["w"])) "pw"
        [⟨"n", "w"⟩]
      = (.error .NoNewTracks, [.getTrackIdsInPlaylist "pw"])
    ∧ ∀ p l, APICall.addTracksToPlaylist p l
        ∉ (CsvToPlaylist.add_songs_to_playlist
            (testAPI (.ok "") (.ok "") (.ok ()) (.ok ["w"])) "pw" [⟨"n", "w"⟩]).2 :=
  claim_C2_amended_empty_submission (testAPI (.ok "") (.ok "") (.ok ()) (.ok ["w"]))
    "pw" [⟨"n", "w"⟩] ["w"] rfl rfl rfl

/-- C8 counterexample: on the empty desired input the dynamodb.rs sync
returns the plain Ok value, the very value it also returns on an input
whose tracks are actually added, so no distinguished NothingToAdd outcome
exists; it moreover issues an addition call with the empty list. -/
theorem claim_C8_counterexample :
    (Dynamodb.add_songs_to_playlist (testAPI (.ok "") (.ok "") (.ok ()) (.ok ["b"])) "q" []).1
      = .ok ()
    ∧ (Dynamodb.add_songs_to_playlist (testAPI (.ok "") (.ok "") (.ok ()) (.ok ["b"])) "q"
        [⟨"m", "c"⟩]).1 = .ok ()
    ∧ (Dynamodb.add_songs_to_playlist (testAPI (.ok "") (.ok "") (.ok ()) (.ok ["b"])) "q" []).2
      = [.getTrackIdsInPlaylist "q", .addTracksToPlaylist "q" []] :=
  ⟨rfl, rfl, rfl⟩

/-- C8 amended: on the empty desired input, and with the remote calls
succeeding, both variants still issue the listing call; the dynamodb.rs
variant then returns the plain Ok value after an addition call with the
empty list, while the dead-code csv_to_playlist.rs variant returns the
distinguished NoNewTracks outcome with no addition call. -/
theorem claim_C8_amended_empty_input {E : Type} (api : PlaylistAPI E) (pid : String)
    (existing : List String)
    (hlist : api.get_track_ids_in_playlist pid = .ok existing)
    (hadd : api.add_tracks_to_playlist pid [] = .ok ()) :
    APICall.getTrackIdsInPlaylist pid ∈ (Dynamodb.add_songs_to_playlist api pid []).2
    ∧ Dynamodb.add_songs_to_playlist api pid []
      = (.ok (), [.getTrackIdsInPlaylist pid, .addTracksToPlaylist pid []])
    ∧ APICall.getTrackIdsInPlaylist pid ∈ (CsvToPlaylist.add_songs_to_playlist api pid []).2
    ∧ CsvToPlaylist.add_songs_to_playlist api pid []
      = (.error .NoNewTracks, [.getTrackIdsInPlaylist pid]) := by
  have hdyn : Dynamodb.add_songs_to_playlist api pid []
      = (.ok (), [.getTrackIdsInPlaylist pid, .addTracksToPlaylist pid []]) := by
    rw [dynamodb_add_songs_eq api pid [] existing hlist]
    simp only [List.map_nil, List.filter_nil]
    rw [hadd]
  have hcsv : CsvToPlaylist.add_songs_to_playlist api pid []
      = (.error .NoNewTracks, [.getTrackIdsInPlaylist pid]) := by
    rw [csv_add_songs_eq api pid [] existing hlist]
    simp [CsvToPlaylist.dedup, List.mergeSort_nil]
  exact ⟨by rw [hdyn]; simp, hdyn, by rw [hcsv]; simp, hcsv⟩

/-- C8 witness: a concrete playlist and the empty desired input exhibit the
amended behavior of both variants. -/
theorem claim_C8_witness :
    APICall.getTrackIdsInPlaylist "pz"
      ∈ (Dynamodb.add_songs_to_playlist (testAPI (.ok "") (.ok "") (.ok ()) (.ok ["z"]))
          "pz" []).2
    ∧ Dynamodb.add_songs_to_playlist (testAPI (.ok "") (.ok "") (.ok ()) (.ok ["z"])) "pz" []
      = (.ok (), [.getTrackIdsInPlaylist "pz", .addTracksToPlaylist "pz" []])
    ∧ APICall.getTrackIdsInPlaylist "pz"
      ∈ (CsvToPlaylist.add_songs_to_playlist (testAPI (.ok "") (.ok "") (.ok ()) (.ok ["z"]))
          "pz" []).2
    ∧ CsvToPlaylist.add_songs_to_playlist (testAPI (.ok "") (.ok "") (.ok ()) (.ok ["z"]))
        "pz" []
      = (.error .NoNewTracks, [.getTrackIdsInPlaylist "pz"]) :=
  claim_C8_amended_empty_input (testAPI (.ok "") (.ok "") (.ok ()) (.ok ["z"])) "pz" ["z"]
    rfl rfl
